import Mathlib

/-!
Verification of the search tool functions in `verifiers/tools/search.py`.

The three tool functions (`search_ddg`, `search`, `search_RAG`) each issue one
outbound request to an external backend, parse the response into a list of
result records, format up to a bounded number of records into bullet text, and
return a single string, converting every fault into a sentinel string.

Shallow embedding conventions:
* Python `str` is modelled as `List Char` (`PyStr`); `pystr` injects Lean string
  literals.
* Each external backend (the `ddgs.text` call, the Brave client, the
  `requests.post` call) is passed in as an explicit function parameter returning
  `Except PyStr _`: an `Except.error e` models an exception with message
  `str(e)` raised during the call, which the source catches with
  `except Exception as e: return f"Error: {str(e)}"`.  The embedded functions
  are total, mirroring the fact that the `try` block absorbs every raised fault.
* Record types carry exactly the fields the source reads; a field read with
  `.get(key, default)` or guarded by `key in r` is an `Option`.
-/

/-- Python `str` modelled as a list of characters. -/
abbrev PyStr := List Char

/-- Injection of a Lean string literal into the `PyStr` model. -/
def pystr (s : String) : PyStr := s.data

/-- Everything strictly before the LAST `'.'` of the list, or `none` when the
list has no `'.'`.  This is the recursive core of Python `s.rsplit('.', 1)[0]`. -/
def rsplitDotHead : PyStr → Option PyStr
  | [] => none
  | c :: cs =>
    match rsplitDotHead cs with
    | some t => some (c :: t)
    | none => if c = '.' then some [] else none

/-- Python `s.rsplit('.', 1)[0]`: the part before the last `'.'`, or the whole
string when no `'.'` occurs. -/
def pyRsplitDot1Head (s : PyStr) : PyStr := (rsplitDotHead s).getD s

/-- One record produced by `ddgs.text` (the fields `search_ddg` reads). -/
structure DDGResult where
  title : PyStr
  body : PyStr
deriving DecidableEq

/-- `min(num_results, 10)`: the `max_results` value `search_ddg` passes to the
backend (source line 18). -/
def ddgRequestedMax (num_results : Int) : Int := min num_results 10

/-- The snippet built on source line 25: `r['body'][:200].rsplit('.', 1)[0] + '.'`. -/
def ddgSnippet (body : PyStr) : PyStr := pyRsplitDot1Head (body.take 200) ++ pystr "."

/-- The bullet block of source line 26: `f"• {title}\n  {snippet}"`. -/
def ddgFormat (r : DDGResult) : PyStr :=
  pystr "• " ++ r.title ++ pystr "\n  " ++ ddgSnippet r.body

/-- `search_ddg` (source lines 1-30).  `backend query maxResults` models
`list(ddgs.text(query, max_results=maxResults))`; `Except.error e` models an
exception raised inside the `try` block. -/
def search_ddg (backend : PyStr → Int → Except PyStr (List DDGResult))
    (query : PyStr) (num_results : Int) : PyStr :=
  match backend query (ddgRequestedMax num_results) with
  | Except.error e => pystr "Error: " ++ e
  | Except.ok results =>
    if results.isEmpty then pystr "No results found"
    else List.intercalate (pystr "\n\n") (results.map ddgFormat)

/-- The `profile` sub-record of a Brave result (`r['profile']['name']`,
`r['profile']['long_name']`, source line 61). -/
structure BraveProfile where
  name : PyStr
  long_name : PyStr
deriving DecidableEq

/-- One record of `results.get('web', {}).get('results', [])` with the fields
`search` reads; `profile` is optional because the source guards it with
`if 'profile' not in r: continue` (source lines 59-60). -/
structure BraveRecord where
  profile : Option BraveProfile
  title : PyStr
  description : PyStr
  url : PyStr
deriving DecidableEq

/-- The request `search` builds: `brave.search(q=query, count=10, raw=True)`
(source line 51).  The count is the literal 10; `search` has no
`num_results` parameter. -/
structure BraveRequest where
  q : PyStr
  count : Nat
deriving DecidableEq

/-- The request built by `search` for a query (source line 51). -/
def braveRequest (query : PyStr) : BraveRequest := ⟨query, 10⟩

/-- The per-record formatting of source lines 59-65: records without a
`'profile'` key yield `none` (the `continue`), the rest yield the block
`f"•  {header}\n   {title}\n   {snippet}\n   {url}"` with
`header = f"{name} ({long_name})"` and `snippet = description[:300] + " ..."`. -/
def braveFormat (r : BraveRecord) : Option PyStr :=
  match r.profile with
  | none => none
  | some p =>
    some (pystr "•  " ++ p.name ++ pystr " (" ++ p.long_name ++ pystr ")" ++
      pystr "\n   " ++ r.title ++ pystr "\n   " ++
      (r.description.take 300 ++ pystr " ...") ++ pystr "\n   " ++ r.url)

/-- The `summaries` list accumulated by the loop of source lines 57-65. -/
def searchSummaries (web_results : List BraveRecord) : List PyStr :=
  web_results.filterMap braveFormat

/-- `search` (source lines 32-69).  `backend` models the Brave client call plus
the `results.get('web', {}).get('results', [])` extraction; `Except.error e`
models an exception raised inside the `try` block. -/
def search (backend : BraveRequest → Except PyStr (List BraveRecord))
    (query : PyStr) : PyStr :=
  match backend (braveRequest query) with
  | Except.error e => pystr "Error: " ++ e
  | Except.ok web_results =>
    if web_results.isEmpty then pystr "No results found"
    else List.intercalate (pystr "\n\n") ((searchSummaries web_results).take 3)

/-- One document record of the RAG response; `title` and `text` are read with
`doc.get("title", "No Title")` and `doc.get("text", "No text available")`
(source lines 100-101), so both are optional. -/
structure RAGDoc where
  title : Option PyStr
  text : Option PyStr
deriving DecidableEq

/-- The parsed JSON body of a 200 response; `result` is read with
`data.get("result", [])` (source line 94), so it is optional. -/
structure RAGBody where
  result : Option (List (List RAGDoc))
deriving DecidableEq

/-- The HTTP response of `requests.post`: a status code and a body whose JSON
parse (`response.json()`, source line 93) may itself raise. -/
structure RAGResponse where
  status_code : Nat
  json : Except PyStr RAGBody

/-- The JSON payload `search_RAG` posts (source line 89):
`{"queries": [query], "topk": num_results, "return_scores": False}`. -/
structure RAGRequest where
  queries : List PyStr
  topk : Int
  return_scores : Bool

/-- The request payload built by `search_RAG` (source line 89). -/
def ragRequest (query : PyStr) (num_results : Int) : RAGRequest :=
  ⟨[query], num_results, false⟩

/-- The snippet of source lines 103-105: take the first 200 characters and, when
a period occurs in them, trim back through the last period (unlike
`ddgSnippet`, no period is appended when none occurs in the window). -/
def ragSnippet (text : PyStr) : PyStr :=
  let snippet := text.take 200
  if '.' ∈ snippet then pyRsplitDot1Head snippet ++ pystr "." else snippet

/-- The bullet block of source line 106: `f"• {title}\n  {snippet}"` with the
defaulted title and text. -/
def ragFormat (doc : RAGDoc) : PyStr :=
  pystr "• " ++ doc.title.getD (pystr "No Title") ++ pystr "\n  " ++
    ragSnippet (doc.text.getD (pystr "No text available"))

/-- `search_RAG` (source lines 71-109).  `backend` models `requests.post`;
`Except.error e` models an exception raised inside the `try` block (network
failure, or via `RAGResponse.json`, a JSON parse failure). -/
def search_RAG (backend : RAGRequest → Except PyStr RAGResponse)
    (query : PyStr) (num_results : Int) : PyStr :=
  match backend (ragRequest query num_results) with
  | Except.error e => pystr "Error: " ++ e
  | Except.ok response =>
    if response.status_code ≠ 200 then
      pystr "Error: " ++ (Nat.repr response.status_code).data
    else
      match response.json with
      | Except.error e => pystr "Error: " ++ e
      | Except.ok data =>
        match data.result.getD [] with
        | [] => pystr "No results found"
        | r0 :: _ =>
          if r0.isEmpty then pystr "No results found"
          else List.intercalate (pystr "\n\n") (r0.map ragFormat)

/-- Modelled from the spec: the contract `search(query, num_results=5)` of
section 4.1, with `num_results` clamped to the range [1,10].  The source
`search` has no such parameter; this definition exists only to compare the
spec's claimed count against the count the source actually uses. -/
def specSearchClampedCount (num_results : Int) : Int := max 1 (min num_results 10)

/-- `rsplitDotHead` yields `none` exactly on dot-free strings. -/
theorem rsplitDotHead_eq_none_iff (l : PyStr) : rsplitDotHead l = none ↔ '.' ∉ l := by
  induction l with
  | nil => simp [rsplitDotHead]
  | cons c cs ih =>
    simp only [rsplitDotHead, List.mem_cons]
    cases h : rsplitDotHead cs with
    | some t =>
      have hmem : '.' ∈ cs := by
        by_contra hnot
        exact Option.noConfusion (h.symm.trans (ih.mpr hnot))
      simp [hmem]
    | none =>
      have hcs : '.' ∉ cs := ih.mp h
      by_cases hc : c = '.'
      · simp [hc]
      · simp [hc, hcs, Ne.symm hc]

/-- When the last `'.'` of the string splits it as `t ++ '.' :: u` (so `u` is
dot-free), `rsplitDotHead` returns exactly `t`. -/
theorem rsplitDotHead_append (t u : PyStr) (hu : '.' ∉ u) :
    rsplitDotHead (t ++ '.' :: u) = some t := by
  induction t with
  | nil => simp [rsplitDotHead, (rsplitDotHead_eq_none_iff u).mpr hu]
  | cons c t ih => simp [rsplitDotHead, ih]

/-- Python `rsplit('.', 1)[0]` on a string whose last period splits it as
`t ++ '.' :: u`. -/
theorem pyRsplitDot1Head_append (t u : PyStr) (hu : '.' ∉ u) :
    pyRsplitDot1Head (t ++ '.' :: u) = t := by
  simp [pyRsplitDot1Head, rsplitDotHead_append t u hu]

/-- Python `rsplit('.', 1)[0]` on a dot-free string is the identity. -/
theorem pyRsplitDot1Head_of_not_mem (s : PyStr) (h : '.' ∉ s) :
    pyRsplitDot1Head s = s := by
  simp [pyRsplitDot1Head, (rsplitDotHead_eq_none_iff s).mpr h]

/-- C1: for every function (`search_ddg`, `search`, `search_RAG`), if the
backend call yields zero usable result records (an empty result list), the
function returns exactly the string `"No results found"`. -/
theorem C1_empty_results_sentinel :
    (∀ (b : PyStr → Int → Except PyStr (List DDGResult)) (q : PyStr) (n : Int),
      b q (ddgRequestedMax n) = Except.ok [] →
      search_ddg b q n = pystr "No results found") ∧
    (∀ (b : BraveRequest → Except PyStr (List BraveRecord)) (q : PyStr),
      b (braveRequest q) = Except.ok [] →
      search b q = pystr "No results found") ∧
    (∀ (b : RAGRequest → Except PyStr RAGResponse) (q : PyStr) (n : Int)
      (body : RAGBody),
      b (ragRequest q n) = Except.ok ⟨200, Except.ok body⟩ →
      body.result.getD [] = [] →
      search_RAG b q n = pystr "No results found") := by
  refine ⟨?_, ?_, ?_⟩
  · intro b q n h
    simp [search_ddg, h]
  · intro b q h
    simp [search, h]
  · intro b q n body h hres
    simp [search_RAG, h, hres]

/-- C1 witness: each function evaluated against a concrete backend that yields
an empty result list. -/
theorem C1_empty_results_sentinel_witness :
    search_ddg (fun _ _ => Except.ok []) (pystr "q") 5 = pystr "No results found" ∧
    search (fun _ => Except.ok []) (pystr "q") = pystr "No results found" ∧
    search_RAG (fun _ => Except.ok ⟨200, Except.ok ⟨none⟩⟩) (pystr "q") 5 =
      pystr "No results found" :=
  ⟨C1_empty_results_sentinel.1 _ _ _ rfl,
   C1_empty_results_sentinel.2.1 _ _ rfl,
   C1_empty_results_sentinel.2.2 _ _ _ ⟨none⟩ rfl rfl⟩

/-- C2: for every function and every exception raised inside the `try` block
(modelled as an `Except.error` outcome of the backend call, or of the JSON
parse for `search_RAG`), the function returns the string `"Error: " ++ str(e)`
— in particular a string starting with the literal prefix `"Error: "` — and,
the embedded functions being total string-valued functions, no raised fault
propagates to the caller. -/
theorem C2_exception_to_error_string :
    (∀ (b : PyStr → Int → Except PyStr (List DDGResult)) (q : PyStr) (n : Int)
      (e : PyStr),
      b q (ddgRequestedMax n) = Except.error e →
      search_ddg b q n = pystr "Error: " ++ e) ∧
    (∀ (b : BraveRequest → Except PyStr (List BraveRecord)) (q : PyStr)
      (e : PyStr),
      b (braveRequest q) = Except.error e →
      search b q = pystr "Error: " ++ e) ∧
    (∀ (b : RAGRequest → Except PyStr RAGResponse) (q : PyStr) (n : Int)
      (e : PyStr),
      b (ragRequest q n) = Except.error e →
      search_RAG b q n = pystr "Error: " ++ e) ∧
    (∀ (b : RAGRequest → Except PyStr RAGResponse) (q : PyStr) (n : Int)
      (e : PyStr),
      b (ragRequest q n) = Except.ok ⟨200, Except.error e⟩ →
      search_RAG b q n = pystr "Error: " ++ e) := by
  refine ⟨?_, ?_, ?_, ?_⟩
  · intro b q n e h
    simp [search_ddg, h]
  · intro b q e h
    simp [search, h]
  · intro b q n e h
    simp [search_RAG, h]
  · intro b q n e h
    simp [search_RAG, h]

/-- C2 witness: each error path evaluated against a concrete failing backend. -/
theorem C2_exception_to_error_string_witness :
    search_ddg (fun _ _ => Except.error (pystr "boom")) (pystr "q") 5 =
      pystr "Error: " ++ pystr "boom" ∧
    search (fun _ => Except.error (pystr "boom")) (pystr "q") =
      pystr "Error: " ++ pystr "boom" ∧
    search_RAG (fun _ => Except.error (pystr "boom")) (pystr "q") 5 =
      pystr "Error: " ++ pystr "boom" ∧
    search_RAG (fun _ => Except.ok ⟨200, Except.error (pystr "bad json")⟩)
      (pystr "q") 5 = pystr "Error: " ++ pystr "bad json" :=
  ⟨C2_exception_to_error_string.1 _ _ _ _ rfl,
   C2_exception_to_error_string.2.1 _ _ _ rfl,
   C2_exception_to_error_string.2.2.1 _ _ _ _ rfl,
   C2_exception_to_error_string.2.2.2 _ _ _ _ rfl⟩

/-- C3: in `search_ddg`, the `max_results` count requested from the backend is
`min(num_results, 10)`, hence never exceeds 10 (and equals 10 at
`num_results = 20`); consequently, whenever the backend honours the requested
maximum, the number of formatted entries never exceeds 10 either. -/
theorem C3_ddg_request_capped_at_ten :
    (∀ n : Int, ddgRequestedMax n ≤ 10) ∧
    ddgRequestedMax 20 = 10 ∧
    (∀ (n : Int) (results : List DDGResult),
      (results.length : Int) ≤ ddgRequestedMax n →
      (results.map ddgFormat).length ≤ 10) := by
  refine ⟨fun n => min_le_right n 10, rfl, ?_⟩
  intro n results h
  have h10 : (results.length : Int) ≤ 10 := le_trans h (min_le_right n 10)
  simp only [List.length_map]
  omega

/-- C3 witness: at `num_results = 20` with a backend honouring the requested
maximum (here: one result), at most 10 entries are formatted. -/
theorem C3_ddg_request_capped_at_ten_witness :
    (([⟨pystr "t", pystr "b"⟩] : List DDGResult).length : Int) ≤
      ddgRequestedMax 20 ∧
    (([⟨pystr "t", pystr "b"⟩] : List DDGResult).map ddgFormat).length ≤ 10 :=
  ⟨by decide, C3_ddg_request_capped_at_ten.2.2 20 _ (by decide)⟩

/-- C4 counterexample: the claim says `search` takes `num_results` (default 5)
clamped to [1,10] before use; in the source, `search(query)` has no
`num_results` parameter (line 32) and hardcodes `count=10` in the backend
request (line 51), so the count used at the claimed default differs from the
claimed clamp of 5. -/
theorem C4_counterexample :
    ((braveRequest (pystr "who invented the lightbulb")).count : Int) ≠
      specSearchClampedCount 5 := by
  decide

/-- C4 (amended): `search` accepts only the query parameter, and every call
requests the fixed count 10 from the backend; no `num_results` clamping
occurs. -/
theorem C4_amended_fixed_count_ten :
    ∀ q : PyStr, (braveRequest q).count = 10 :=
  fun _ => rfl

/-- C5: in `search_ddg` the snippet is the body truncated to its first 200
characters and trimmed back through the last period in that window, with a
trailing period: (i) whenever the 200-character window splits as
`t ++ '.' :: u` with `u` dot-free (so that period is the last in the window),
the snippet is `t ++ "."`; (ii) for a 250-character body whose only period in
the first 200 characters sits at position 180 (body
`t ++ '.' :: (u ++ v)` with `|t| = 180`, `|u| = 19`, `|v| = 50`, `t` and `u`
dot-free), the snippet equals the body's first 181 characters; (iii) for a
250-character body with no period in the first 200 characters, the snippet is
the raw 200-character truncation with a period appended. -/
theorem C5_ddg_snippet_truncation :
    (∀ (body t u : PyStr), body.take 200 = t ++ '.' :: u → '.' ∉ u →
      ddgSnippet body = t ++ pystr ".") ∧
    (∀ (t u v : PyStr), t.length = 180 → u.length = 19 → v.length = 50 →
      '.' ∉ t → '.' ∉ u →
      ddgSnippet (t ++ '.' :: (u ++ v)) = (t ++ '.' :: (u ++ v)).take 181) ∧
    (∀ body : PyStr, body.length = 250 → '.' ∉ body.take 200 →
      ddgSnippet body = body.take 200 ++ pystr ".") := by
  refine ⟨?_, ?_, ?_⟩
  · intro body t u hsplit hu
    rw [ddgSnippet, hsplit, pyRsplitDot1Head_append t u hu]
  · intro t u v ht hu hv hdt hdu
    have hu19 : (u ++ v).take 19 = u := by
      rw [List.take_append_eq_append_take, List.take_of_length_le (by omega), hu]
      simp
    have h200 : (t ++ '.' :: (u ++ v)).take 200 = t ++ '.' :: u := by
      rw [List.take_append_eq_append_take, List.take_of_length_le (by omega), ht]
      norm_num
      exact hu19
    have h181 : (t ++ '.' :: (u ++ v)).take 181 = t ++ pystr "." := by
      rw [List.take_append_eq_append_take, List.take_of_length_le (by omega), ht]
      norm_num
      rfl
    rw [ddgSnippet, h200, pyRsplitDot1Head_append t u hdu, h181]
  · intro body hlen hnd
    rw [ddgSnippet, pyRsplitDot1Head_of_not_mem _ hnd]

set_option maxRecDepth 100000 in
/-- C5 witness: conjunct (ii) at the concrete 250-character body
`180 × 'a', '.', 19 × 'b', 50 × 'c'` (only period at position 180), and
conjunct (iii) at the concrete dot-free 250-character body `250 × 'x'`. -/
theorem C5_ddg_snippet_truncation_witness :
    (List.replicate 180 'a').length = 180 ∧
    '.' ∉ List.replicate 19 'b' ∧
    ddgSnippet (List.replicate 180 'a' ++
        '.' :: (List.replicate 19 'b' ++ List.replicate 50 'c')) =
      (List.replicate 180 'a' ++
        '.' :: (List.replicate 19 'b' ++ List.replicate 50 'c')).take 181 ∧
    ddgSnippet (List.replicate 250 'x') =
      (List.replicate 250 'x').take 200 ++ pystr "." :=
  ⟨by decide, by decide,
   C5_ddg_snippet_truncation.2.1 _ _ _ (by decide) (by decide) (by decide)
     (by decide) (by decide),
   C5_ddg_snippet_truncation.2.2 _ (by decide) (by decide)⟩

/-- C6: in `search_RAG`, every response with a non-200 status code yields
exactly `"Error: <status code>"`, whatever the body holds (the JSON body is
never parsed — the second conjunct holds even when `body` is an unparseable
`Except.error`); in particular an HTTP 500 response yields exactly
`"Error: 500"`. -/
theorem C6_rag_non200_status :
    (∀ (b : RAGRequest → Except PyStr RAGResponse) (q : PyStr) (n : Int)
      (resp : RAGResponse),
      b (ragRequest q n) = Except.ok resp → resp.status_code ≠ 200 →
      search_RAG b q n = pystr "Error: " ++ (Nat.repr resp.status_code).data) ∧
    (∀ (b : RAGRequest → Except PyStr RAGResponse) (q : PyStr) (n : Int)
      (body : Except PyStr RAGBody),
      b (ragRequest q n) = Except.ok ⟨500, body⟩ →
      search_RAG b q n = pystr "Error: 500") := by
  constructor
  · intro b q n resp h hne
    simp [search_RAG, h, hne]
  · intro b q n body h
    simp [search_RAG, h]
    rfl

/-- C6 witness: a concrete backend answering HTTP 500 with an unparseable body
yields exactly `"Error: 500"`. -/
theorem C6_rag_non200_status_witness :
    search_RAG (fun _ => Except.ok ⟨500, Except.error (pystr "unparsed")⟩)
      (pystr "q") 5 = pystr "Error: 500" :=
  C6_rag_non200_status.2 _ _ _ _ rfl

/-- C7: in `search_RAG`, every 200 response whose parsed body has `result`
equal to `[[]]` — or whose `result` field is absent (`none`) or the empty
list — yields exactly `"No results found"`. -/
theorem C7_rag_empty_result_variants :
    ∀ (b : RAGRequest → Except PyStr RAGResponse) (q : PyStr) (n : Int)
      (body : RAGBody),
      b (ragRequest q n) = Except.ok ⟨200, Except.ok body⟩ →
      (body.result = none ∨ body.result = some [] ∨
        ∃ rest, body.result = some ([] :: rest)) →
      search_RAG b q n = pystr "No results found" := by
  intro b q n body h hres
  rcases hres with h1 | h1 | ⟨rest, h1⟩ <;> simp [search_RAG, h, h1]

/-- C7 witness: a concrete 200 response with body `{"result": [[]]}` yields
`"No results found"`. -/
theorem C7_rag_empty_result_variants_witness :
    search_RAG (fun _ => Except.ok ⟨200, Except.ok ⟨some [[]]⟩⟩) (pystr "q") 5 =
      pystr "No results found" :=
  C7_rag_empty_result_variants _ _ _ ⟨some [[]]⟩ rfl (Or.inr (Or.inr ⟨[], rfl⟩))

/-- C8: in `search`, a record without a `'profile'` key contributes nothing —
`braveFormat` yields `none` for it, removing such a record from anywhere in
the list leaves the summaries unchanged (so it is silently skipped without any
raised fault, the embedding being total) — and the summaries keep exactly one
entry per remaining record that does carry a profile. -/
theorem C8_missing_profile_skipped :
    (∀ r : BraveRecord, r.profile = none → braveFormat r = none) ∧
    (∀ (pre post : List BraveRecord) (bad : BraveRecord), bad.profile = none →
      searchSummaries (pre ++ bad :: post) = searchSummaries (pre ++ post)) ∧
    (∀ records : List BraveRecord,
      (searchSummaries records).length =
        (records.filter (fun r => r.profile.isSome)).length) := by
  have hnone : ∀ r : BraveRecord, r.profile = none → braveFormat r = none := by
    intro r h
    simp [braveFormat, h]
  refine ⟨hnone, ?_, ?_⟩
  · intro pre post bad h
    simp [searchSummaries, List.filterMap_append, List.filterMap_cons, hnone bad h]
  · intro records
    induction records with
    | nil => simp [searchSummaries]
    | cons r rs ih =>
      cases hp : r.profile with
      | none =>
        simpa [searchSummaries, List.filterMap_cons, braveFormat, hp,
          List.filter_cons] using ih
      | some p =>
        simpa [searchSummaries, List.filterMap_cons, braveFormat, hp,
          List.filter_cons] using ih

/-- C8 witness: a concrete profile-less record is dropped from the summaries. -/
theorem C8_missing_profile_skipped_witness :
    (⟨none, pystr "t", pystr "d", pystr "u"⟩ : BraveRecord).profile = none ∧
    searchSummaries ([] ++ (⟨none, pystr "t", pystr "d", pystr "u"⟩ : BraveRecord) :: []) =
      searchSummaries ([] ++ []) :=
  ⟨rfl, C8_missing_profile_skipped.2.1 [] [] _ rfl⟩

/-- Four well-formed Brave records (all carrying a profile), used to exercise
the formatting caps of `search`. -/
def braveRecords4 : List BraveRecord :=
  [⟨some ⟨pystr "s1", pystr "l1"⟩, pystr "t1", pystr "d1", pystr "u1"⟩,
   ⟨some ⟨pystr "s2", pystr "l2"⟩, pystr "t2", pystr "d2", pystr "u2"⟩,
   ⟨some ⟨pystr "s3", pystr "l3"⟩, pystr "t3", pystr "d3", pystr "u3"⟩,
   ⟨some ⟨pystr "s4", pystr "l4"⟩, pystr "t4", pystr "d4", pystr "u4"⟩]

/-- Four well-formed DDG records, used to exercise the formatting cap of
`search_ddg`. -/
def ddgResults4 : List DDGResult :=
  [⟨pystr "t1", pystr "b1."⟩, ⟨pystr "t2", pystr "b2."⟩,
   ⟨pystr "t3", pystr "b3."⟩, ⟨pystr "t4", pystr "b4."⟩]

/-- C9 counterexample: the claim has the two caps swapped.  With four
well-formed records, `search` emits only the first 3 formatted entries — not
all four, as a cap at the claimed clamped `num_results` (default 5) would —
while `search_ddg` emits all four formatted entries, not just 3 as a fixed cap
of 3 would. -/
theorem C9_counterexample :
    search (fun _ => Except.ok braveRecords4) (pystr "q") =
      List.intercalate (pystr "\n\n") ((searchSummaries braveRecords4).take 3) ∧
    search (fun _ => Except.ok braveRecords4) (pystr "q") ≠
      List.intercalate (pystr "\n\n") (searchSummaries braveRecords4) ∧
    search_ddg (fun _ _ => Except.ok ddgResults4) (pystr "q") 5 =
      List.intercalate (pystr "\n\n") (ddgResults4.map ddgFormat) ∧
    search_ddg (fun _ _ => Except.ok ddgResults4) (pystr "q") 5 ≠
      List.intercalate (pystr "\n\n") ((ddgResults4.map ddgFormat).take 3) :=
  ⟨rfl, by decide, rfl, by decide⟩

/-- C9 (amended): the fixed cap of 3 formatted entries applies to `search`
(`summaries[:3]`), while `search_ddg` formats every record the backend
returns, one entry per record, relying only on having requested at most
`min(num_results, 10)` results. -/
theorem C9_amended_caps :
    (∀ (b : BraveRequest → Except PyStr (List BraveRecord)) (q : PyStr)
      (results : List BraveRecord),
      b (braveRequest q) = Except.ok results → results ≠ [] →
      search b q =
        List.intercalate (pystr "\n\n") ((searchSummaries results).take 3) ∧
      ((searchSummaries results).take 3).length ≤ 3) ∧
    (∀ (b : PyStr → Int → Except PyStr (List DDGResult)) (q : PyStr) (n : Int)
      (results : List DDGResult),
      b q (ddgRequestedMax n) = Except.ok results → results ≠ [] →
      search_ddg b q n =
        List.intercalate (pystr "\n\n") (results.map ddgFormat) ∧
      (results.map ddgFormat).length = results.length) := by
  constructor
  · intro b q results h hne
    constructor
    · simp [search, h, hne]
    · simp [List.length_take]
  · intro b q n results h hne
    constructor
    · simp [search_ddg, h, hne]
    · simp

/-- C9 amended witness: the caps evaluated on the four-record backends. -/
theorem C9_amended_caps_witness :
    braveRecords4 ≠ [] ∧
    search (fun _ => Except.ok braveRecords4) (pystr "q2") =
      List.intercalate (pystr "\n\n") ((searchSummaries braveRecords4).take 3) ∧
    ddgResults4 ≠ [] ∧
    search_ddg (fun _ _ => Except.ok ddgResults4) (pystr "q2") 5 =
      List.intercalate (pystr "\n\n") (ddgResults4.map ddgFormat) :=
  ⟨by decide, (C9_amended_caps.1 _ _ _ rfl (by decide)).1, by decide,
   (C9_amended_caps.2 _ _ _ _ rfl (by decide)).1⟩

/-- C10: when the backend hands `search` a non-empty record list in which every
record lacks the `'profile'` key, the function returns the empty string —
which is neither the `"No results found"` sentinel nor any `"Error: ..."`
diagnostic. -/
theorem C10_all_profiles_missing_empty_output :
    ∀ (b : BraveRequest → Except PyStr (List BraveRecord)) (q : PyStr)
      (records : List BraveRecord),
      b (braveRequest q) = Except.ok records → records ≠ [] →
      (∀ r ∈ records, r.profile = none) →
      search b q = ([] : PyStr) ∧
      ([] : PyStr) ≠ pystr "No results found" ∧
      ∀ e : PyStr, ([] : PyStr) ≠ pystr "Error: " ++ e := by
  intro b q records h hne hall
  have hsum : searchSummaries records = [] := by
    rw [searchSummaries, List.filterMap_eq_nil_iff]
    intro r hr
    simp [braveFormat, hall r hr]
  refine ⟨?_, by decide, ?_⟩
  · simp only [search, h, hne, hsum]
    simp [List.intercalate, hne]
  · intro e hcon
    rw [show pystr "Error: " ++ e = 'E' :: (pystr "rror: " ++ e) from rfl] at hcon
    exact List.noConfusion hcon

/-- C10 witness: a backend returning one profile-less record makes `search`
return the empty string. -/
theorem C10_all_profiles_missing_empty_output_witness :
    search (fun _ => Except.ok [⟨none, pystr "t", pystr "d", pystr "u"⟩])
      (pystr "q") = ([] : PyStr) :=
  (C10_all_profiles_missing_empty_output _ _ _ rfl (by decide) (by decide)).1
